import Mathlib

/-!
Verification of the HedgeQuantX README image generator
(`src/assets/generate-images.py`).

The script lays out four text panels (logo, dashboard, algo-trading,
copy-trading) as lists of `(text, color_map)` pairs built from pure string
arithmetic, then rasterizes each list to a PNG.  This file is a shallow
embedding of that layout logic: strings are Lean `String`s (Python `len`
counts code points, as does `String.length`), colors are RGB triples, and
the effectful tail of the script (font probing, drawing, saving) is
modelled by explicit parameters and event traces.

Note on Python negative values: where the source computes a possibly
negative padding `k` and then uses `" " * k` / `[c] * k` (which yield the
empty string/list for `k < 0`), the embedding uses truncating `Nat`
subtraction, which produces the same strings and color lists.
-/

namespace HQX

/-- RGB color triple, matching the generator's `(r, g, b)` color constants. -/
abbrev Color := Nat × Nat × Nat

def BG : Color := (13, 17, 23)

def CYAN : Color := (0, 255, 255)

def YELLOW : Color := (255, 255, 0)

def GREEN : Color := (0, 255, 0)

def WHITE : Color := (255, 255, 255)

def RED : Color := (255, 0, 0)

def MAGENTA : Color := (255, 0, 255)

/-- `SCALE = 2`, the supersampling factor. -/
def SCALE : Nat := 2

/-- `BASE_FONT_SIZE = 24`. -/
def BASE_FONT_SIZE : Nat := 24

/-- Python string repetition `c * n` for a single character `c`. -/
def pyRep (c : Char) (n : Nat) : String := String.mk (List.replicate n c)

/-- `" " * n`. -/
def spaces (n : Nat) : String := pyRep ' ' n

/-- `build_line(segments)`: concatenate the segment texts and build the
parallel color map, one color per character of each segment. -/
def build_line (segments : List (String × Color)) : String × List Color :=
  segments.foldl
    (fun acc seg => (acc.1 ++ seg.1, acc.2 ++ List.replicate seg.1.length seg.2))
    ("", [])

/-- Fixed panel width `W = 98` (declared locally, with this value, in
`gen_dashboard`, `gen_algo` and `gen_copy`). -/
def W : Nat := 98

namespace Dashboard

/-- The six ASCII-art logo lines (the same six strings appear in `gen_logo`
and in `gen_dashboard`). -/
def logo_raw : List String :=
  ["██╗  ██╗███████╗██████╗  ██████╗ ███████╗ ██████╗ ██╗   ██╗ █████╗ ███╗   ██╗████████╗██╗  ██╗",
   "██║  ██║██╔════╝██╔══██╗██╔════╝ ██╔════╝██╔═══██╗██║   ██║██╔══██╗████╗  ██║╚══██╔══╝╚██╗██╔╝",
   "███████║█████╗  ██║  ██║██║  ███╗█████╗  ██║   ██║██║   ██║███████║██╔██╗ ██║   ██║    ╚███╔╝ ",
   "██╔══██║██╔══╝  ██║  ██║██║   ██║██╔══╝  ██║▄▄ ██║██║   ██║██╔══██║██║╚██╗██║   ██║    ██╔██╗ ",
   "██║  ██║███████╗██████╔╝╚██████╔╝███████╗╚██████╔╝╚██████╔╝██║  ██║██║ ╚████║   ██║   ██╔╝ ██╗",
   "╚═╝  ╚═╝╚══════╝╚═════╝  ╚═════╝ ╚══════╝ ╚══▀▀═╝  ╚═════╝ ╚═╝  ╚═╝╚═╝  ╚═══╝   ╚═╝   ╚═╝  ╚═╝"]

/-- `full_border(left, mid, right)` from `gen_dashboard`; the `mid` argument
is accepted but unused by the source body (the fill is always `═`). -/
def full_border (left _mid right : String) : String × List Color :=
  let line := left ++ pyRep '═' (W - 2) ++ right
  (line, List.replicate line.length CYAN)

/-- `logo_line(logo_text)`: a bordered, centered logo row whose last 8 logo
characters are yellow. -/
def logo_line (logo_text : String) : String × List Color :=
  let content_w := W - 2
  let logo_len := logo_text.length
  let left_pad := (content_w - logo_len) / 2
  let right_pad := content_w - logo_len - left_pad
  let full := "║" ++ spaces left_pad ++ logo_text ++ spaces right_pad ++ "║"
  let colors := [CYAN] ++ List.replicate left_pad CYAN
    ++ List.replicate (logo_len - 8) CYAN ++ List.replicate 8 YELLOW
    ++ List.replicate right_pad CYAN ++ [CYAN]
  (full, colors)

end Dashboard

/-- Left padding computed by every `center_line` variant:
`(content_width - text_len) // 2` with `content_width = W - 2 = 96`. -/
def center_padL (n : Nat) : Nat := (W - 2 - n) / 2

/-- Right padding computed by every `center_line` variant:
`content_width - text_len - left_pad`. -/
def center_padR (n : Nat) : Nat := W - 2 - n - center_padL n

/-- `center_line(text_segments)`: center the joined segments between `║`
borders.  `gen_dashboard`, `gen_algo` and `gen_copy` each define this
function locally with an identical body (`gen_dashboard`'s extra `border`
parameter is always left at its default value `"║"`). -/
def center_line (segs : List (String × Color)) : String × List Color :=
  let (text, colors) := build_line segs
  let left_pad := center_padL text.length
  let right_pad := center_padR text.length
  ("║" ++ spaces left_pad ++ text ++ spaces right_pad ++ "║",
   [CYAN] ++ List.replicate left_pad CYAN ++ colors
     ++ List.replicate right_pad CYAN ++ [CYAN])

namespace Dashboard

/-- `menu_line(left_item, right_item)`: two 48-character columns, no
separator character. -/
def menu_line (left_item right_item : List (String × Color)) : String × List Color :=
  let (left_text, left_colors) := build_line left_item
  let (right_text, right_colors) := build_line right_item
  let col_width := (W - 2) / 2
  let left_padded := left_text ++ spaces (col_width - left_text.length)
  let right_padded := right_text ++ spaces (col_width - right_text.length)
  ("║" ++ left_padded ++ right_padded ++ "║",
   [CYAN] ++ left_colors ++ List.replicate (col_width - left_text.length) CYAN
     ++ right_colors ++ List.replicate (col_width - right_text.length) CYAN ++ [CYAN])

/-- The dashboard panel's lines, exactly as assembled by `gen_dashboard`. -/
def lines : List (String × List Color) :=
  [full_border "╔" "═" "╗"]
  ++ logo_raw.map logo_line
  ++ [full_border "╠" "═" "╣",
      center_line [("Prop Futures Algo Trading  v2.3.4", WHITE)],
      full_border "╠" "═" "╣",
      center_line [("Welcome, HQX Trader!", YELLOW)],
      full_border "╠" "═" "╣",
      center_line [("● ", GREEN), ("TopStep", WHITE), ("      ", CYAN),
        ("● ", GREEN), ("Apex Trader Funding", WHITE)],
      full_border "╠" "═" "╣",
      center_line [("✔ ", YELLOW), ("Connections: ", WHITE), ("2", GREEN),
        ("    ", CYAN), ("✔ ", YELLOW), ("Accounts: ", WHITE), ("2", GREEN),
        ("    ", CYAN), ("✔ ", YELLOW), ("Balance: ", WHITE), ("$449,682", GREEN),
        ("    ", CYAN), ("✔ ", YELLOW), ("P&L: ", WHITE), ("+$1,250", GREEN)],
      full_border "╠" "═" "╣",
      menu_line [("  [1] View Accounts", CYAN)] [("[2] View Stats", CYAN)],
      menu_line [("  [+] Add Prop-Account", CYAN)] [("[A] Algo-Trading", MAGENTA)],
      menu_line [("  [U] Update HQX", YELLOW)] [("[X] Disconnect", RED)],
      full_border "╚" "═" "╝"]

end Dashboard

namespace Logo

/-- The in-place loop of `gen_logo` that recolors the last 8 entries of a
color map yellow. -/
def yellow_last8 (colors : List Color) : List Color :=
  colors.take (colors.length - 8)
    ++ (colors.drop (colors.length - 8)).map (fun _ => YELLOW)

/-- The logo panel's lines, as assembled by `gen_logo`: each raw line is a
single cyan segment whose last 8 colors are then turned yellow. -/
def lines : List (String × List Color) :=
  Dashboard.logo_raw.map (fun t =>
    let (text, colors) := build_line [(t, CYAN)]
    (text, yellow_last8 colors))

end Logo

namespace Algo

/-- Left column width in `gen_algo` / `gen_copy`. -/
def LEFT_W : Nat := 48

/-- Right column width in `gen_algo` / `gen_copy`. -/
def RIGHT_W : Nat := 47

/-- `full_border(left, right, mid=None)` from `gen_algo`: a full-width border
line with an optional junction between the two column spans. -/
def full_border (left right : String) (mid : Option String) : String × List Color :=
  let line :=
    match mid with
    | some m => left ++ pyRep '═' LEFT_W ++ m ++ pyRep '═' RIGHT_W ++ right
    | none => left ++ pyRep '═' (W - 2) ++ right
  (line, List.replicate line.length CYAN)

/-- `two_col_line(left_segments, right_segments)`: two padded columns around
a `│` separator. -/
def two_col_line (left_segments right_segments : List (String × Color)) :
    String × List Color :=
  let (left_text, left_colors) := build_line left_segments
  let (right_text, right_colors) := build_line right_segments
  let left_padded := left_text ++ spaces (LEFT_W - left_text.length)
  let right_padded := right_text ++ spaces (RIGHT_W - right_text.length)
  ("║" ++ left_padded ++ "│" ++ right_padded ++ "║",
   [CYAN] ++ left_colors ++ List.replicate (LEFT_W - left_text.length) CYAN
     ++ [CYAN]
     ++ right_colors ++ List.replicate (RIGHT_W - right_text.length) CYAN
     ++ [CYAN])

/-- `smart_log(timestamp, tag, tag_color, message)`: a left-aligned log line
`" TIMESTAMP TAG MESSAGE"` padded to the inner width. -/
def smart_log (timestamp tag : String) (tag_color : Color) (message : String) :
    String × List Color :=
  let content := " " ++ timestamp ++ " " ++ tag ++ " " ++ message
  let padding := W - 2 - content.length
  ("║" ++ content ++ spaces padding ++ "║",
   [CYAN] ++ [WHITE] ++ List.replicate timestamp.length WHITE ++ [WHITE]
     ++ List.replicate tag.length tag_color ++ [WHITE]
     ++ List.replicate message.length WHITE
     ++ List.replicate padding CYAN ++ [CYAN])

/-- The algo-trading panel's lines, exactly as assembled by `gen_algo`. -/
def lines : List (String × List Color) :=
  [full_border "╔" "╗" none,
   center_line [("One Account Mode", YELLOW)],
   full_border "╠" "╣" (some "╤"),
   two_col_line [(" Account: ", WHITE), ("HQX *****", CYAN)]
     [(" Symbol: ", WHITE), ("MNQ Mar25", YELLOW)],
   full_border "╠" "╣" (some "╪"),
   two_col_line [(" Qty: ", WHITE), ("1", GREEN)]
     [(" P&L: ", WHITE), ("+$42.50", GREEN)],
   two_col_line [(" Target: ", WHITE), ("$200.00", GREEN)]
     [(" Risk: ", WHITE), ("$100.00", RED)],
   two_col_line [(" Trades: ", WHITE), ("3", WHITE), ("  W/L: ", WHITE),
       ("2", GREEN), ("/", WHITE), ("1", RED)]
     [(" Server: ", WHITE), ("ON", GREEN)],
   full_border "╠" "╣" (some "╪"),
   two_col_line [(" Latency: ", WHITE), ("45ms", GREEN)]
     [(" Propfirm: ", WHITE), ("Apex", CYAN)],
   full_border "╠" "╣" (some "╧"),
   smart_log "09:31:02" "SYS  " CYAN "HQX Algo Engine v2.3.4 initialized",
   smart_log "09:31:03" "CONN " GREEN "Connected to Rithmic",
   smart_log "09:31:03" "READY" CYAN "Listening MNQ Mar25 | Target $200 | Risk $100",
   smart_log "09:32:15" "SYS  " CYAN "Signal detected: LONG setup forming",
   smart_log "09:32:16" "BUY  " GREEN "+1 MNQ @ 21,845.25 | SL: 21,837.25 | TP: 21,869.25",
   smart_log "09:33:42" "SYS  " CYAN "TP1 hit - moving SL to breakeven",
   smart_log "09:34:18" "SELL " RED "-1 MNQ @ 21,862.50 | P&L: +$34.50",
   smart_log "09:34:18" "WIN  " GREEN "Trade #1 closed +$34.50 | Session: +$34.50",
   smart_log "09:35:05" "SYS  " CYAN "Signal detected: SHORT setup forming",
   smart_log "09:35:06" "SELL " RED "-1 MNQ @ 21,858.00 | SL: 21,866.00 | TP: 21,834.00",
   smart_log "09:35:52" "SYS  " CYAN "Price action weak - tightening SL",
   smart_log "09:36:15" "BUY  " GREEN "+1 MNQ @ 21,854.00 | P&L: +$8.00",
   smart_log "09:36:15" "WIN  " GREEN "Trade #2 closed +$8.00 | Session: +$42.50",
   smart_log "09:36:30" "INFO " WHITE "Scanning for next setup...",
   full_border "╠" "╣" none,
   center_line [("Press ", WHITE), ("[X]", RED), (" to stop trading", WHITE)],
   full_border "╚" "╝" none]

end Algo

namespace Copy

/-- The copy-trading panel's lines, exactly as assembled by `gen_copy`.
`gen_copy`'s local `full_border`, `center_line`, `two_col_line` and
`smart_log` are verbatim copies of `gen_algo`'s (same `W`, `LEFT_W`,
`RIGHT_W`), so the `Algo` definitions are reused here. -/
def lines : List (String × List Color) :=
  [Algo.full_border "╔" "╗" none,
   center_line [("Copy Trading Mode", YELLOW)],
   Algo.full_border "╠" "╣" (some "╤"),
   Algo.two_col_line [(" Lead: ", WHITE), ("HQX *****", CYAN)]
     [(" Follower: ", WHITE), ("HQX *****", CYAN)],
   Algo.full_border "╠" "╣" none,
   center_line [("Symbol: ", WHITE), ("MNQ Mar25", YELLOW)],
   Algo.full_border "╠" "╣" (some "╤"),
   Algo.two_col_line [(" Qty: ", WHITE), ("1", GREEN)]
     [(" Qty: ", WHITE), ("1", GREEN)],
   Algo.full_border "╠" "╣" (some "╪"),
   Algo.two_col_line [(" Target: ", WHITE), ("$400.00", GREEN)]
     [(" Risk: ", WHITE), ("$200.00", RED)],
   Algo.full_border "╠" "╣" (some "╪"),
   Algo.two_col_line [(" P&L: ", WHITE), ("+$62.50", GREEN)]
     [(" Server: ", WHITE), ("ON", GREEN)],
   Algo.full_border "╠" "╣" (some "╪"),
   Algo.two_col_line [(" Trades: ", WHITE), ("2", WHITE), ("  W/L: ", WHITE),
       ("2", GREEN), ("/", WHITE), ("0", RED)]
     [(" Latency: ", WHITE), ("38ms", GREEN)],
   Algo.full_border "╠" "╣" (some "╧"),
   Algo.smart_log "09:31:02" "SYS  " CYAN "Copy Trading Engine initialized",
   Algo.smart_log "09:31:03" "CONN " GREEN "Lead account connected",
   Algo.smart_log "09:31:03" "CONN " GREEN "Follower account connected",
   Algo.smart_log "09:31:04" "READY" CYAN "Watching MNQ Mar25 | Target $400 | Risk $200",
   Algo.smart_log "09:32:15" "BUY  " GREEN "Lead: +1 MNQ @ 21,845.25",
   Algo.smart_log "09:32:15" "BUY  " GREEN "Follower: Copied +1 MNQ @ 21,845.50 (0.25 slip)",
   Algo.smart_log "09:33:42" "SELL " RED "Lead: -1 MNQ @ 21,860.50",
   Algo.smart_log "09:33:42" "SELL " RED "Follower: Copied -1 MNQ @ 21,860.25 (0.25 slip)",
   Algo.smart_log "09:33:42" "WIN  " GREEN "Trade #1 | Lead: +$30.50 | Follower: +$29.50",
   Algo.smart_log "09:34:55" "BUY  " GREEN "Lead: +1 MNQ @ 21,855.00",
   Algo.smart_log "09:34:55" "BUY  " GREEN "Follower: Copied +1 MNQ @ 21,855.00 (no slip)",
   Algo.smart_log "09:35:38" "SELL " RED "Lead: -1 MNQ @ 21,871.50",
   Algo.smart_log "09:35:38" "SELL " RED "Follower: Copied -1 MNQ @ 21,871.25 (0.25 slip)",
   Algo.smart_log "09:35:38" "WIN  " GREEN "Trade #2 | Lead: +$33.00 | Follower: +$32.50",
   Algo.smart_log "09:35:50" "INFO " WHITE "Session P&L: +$63.50 / +$62.00 | Waiting...",
   Algo.full_border "╠" "╣" none,
   center_line [("Press ", WHITE), ("[X]", RED), (" to stop trading", WHITE)],
   Algo.full_border "╚" "╝" none]

end Copy

/-- The text components of a panel's lines. -/
def texts (panel : List (String × List Color)) : List String :=
  panel.map (fun l => l.1)

/-- Character of `s` at code-point index `i` (a space when out of range). -/
def charAt (s : String) (i : Nat) : Char := s.data.getD i ' '

/-- A rendered line with the `│` column separator at index 49; among the
generated panel lines these are exactly the outputs of `two_col_line`. -/
def isTwoCol (s : String) : Bool := charAt s 49 == '│'

/-- An interior border line, i.e. one built with left corner `╠`. -/
def isInteriorBorder (s : String) : Bool := charAt s 0 == '╠'

/-- The junction character expected at index 49 of an interior border line,
given whether the adjacent line above / below is a two-column line. -/
def expectedMid (above below : Bool) : Char :=
  if above && below then '╪'
  else if above then '╧'
  else if below then '╤'
  else '═'

/-- Does line `i` of the panel carry the matching junction at index 49
exactly when the adjacent content is two-column?  (Trivially true on
non-interior-border lines.) -/
def junctionOkAt (ts : List String) (i : Nat) : Bool :=
  match ts.get? i with
  | none => true
  | some cur =>
    if isInteriorBorder cur then
      let a := if i == 0 then false else (ts.get? (i - 1)).elim false isTwoCol
      let b := (ts.get? (i + 1)).elim false isTwoCol
      charAt cur 49 == expectedMid a b
    else true

/-- Indices of lines violating the junction rule. -/
def junctionMismatches (ts : List String) : List Nat :=
  (List.range ts.length).filter (fun i => !(junctionOkAt ts i))

/-- Every content line (one not starting with a `╔`/`╠`/`╚` border corner)
has `║` at index 0 and at index 97. -/
def contentBordersOk (ts : List String) : Bool :=
  ts.all (fun s =>
    if charAt s 0 == '╔' || charAt s 0 == '╠' || charAt s 0 == '╚' then true
    else charAt s 0 == '║' && charAt s 97 == '║')

/-- The box-character position property of one panel: content borders at
indices 0 and 97, and on every interior border line the matching junction
(`╤`, `╧`, `╪`, else `═`) at index 49 exactly when the adjacent line is
two-column. -/
def borderPositionsOk (ts : List String) : Bool :=
  contentBordersOk ts && (List.range ts.length).all (junctionOkAt ts)

/-- Result of `get_font`: a truetype font loaded from a path at a size, or
the library's default fallback font (`ImageFont.load_default()`). -/
inductive Font
| truetype (path : String) (size : Nat)
| fallback
deriving DecidableEq

/-- The two candidate font paths probed by `get_font`, in order. -/
def font_paths : List String :=
  ["/usr/share/fonts/truetype/dejavu/DejaVuSansMono.ttf",
   "/usr/share/fonts/truetype/dejavu/DejaVuSansMono-Bold.ttf"]

/-- `get_font(size)`: a truetype font from the first listed path that
exists, else the default font.  `os.path.exists` is the explicit
parameter `pathExists`. -/
def get_font (pathExists : String → Bool) (size : Nat) : Font :=
  match font_paths.find? pathExists with
  | some p => Font.truetype p size
  | none => Font.fallback

/-- Canvas geometry of `make_image_fixed_width`, with the font metric
`char_width = font.getbbox("W")[2]` as an explicit parameter (it comes
from the loaded font, outside this embedding).  Returns
`(W, H, final_w, final_h)`: the supersampled canvas size and the saved
(downsampled) image size.  The line height `int(render_size * 1.3)` is
modelled exactly as `render_size * 13 / 10`. -/
def make_image_dims (panel_lines : List (String × List Color))
    (font_size char_width : Nat) : Nat × Nat × Nat × Nat :=
  let render_size := font_size * SCALE
  let lh := render_size * 13 / 10
  let px := 40 * SCALE
  let py := 30 * SCALE
  let max_chars := (panel_lines.map (fun l => l.1.length)).foldl max 0
  let w := max_chars * char_width + px * 2
  let h := panel_lines.length * lh + py * 2
  (w, h, w / SCALE, h / SCALE)

/-- The rasterizer's per-character color lookup
(`color_map[i] if i < len(color_map) else WHITE`). -/
def char_color (color_map : List Color) (i : Nat) : Color :=
  if h : i < color_map.length then color_map.get ⟨i, h⟩ else WHITE

/-- The output directory hard-coded in `make_image_fixed_width`'s
`img.save` call. -/
def ASSET_DIR : String := "/root/HQX-CLI/assets/"

/-- Observable phases of one `make_image_fixed_width` call. -/
inductive Event
| layout (filename : String)
| draw (filename : String)
| resize (filename : String)
| save (path : String)
deriving DecidableEq

/-- The event trace of `make_image_fixed_width(lines, filename)`: layout
(dimension computation), character drawing, downsampling resize, then one
save to the fixed asset directory. -/
def make_image_events (filename : String) : List Event :=
  [Event.layout filename, Event.draw filename, Event.resize filename,
   Event.save (ASSET_DIR ++ filename)]

/-- The saved path of an event, when it is a save. -/
def savePath : Event → Option String
| Event.save p => some p
| _ => none

/-- The four file names the driver saves, in execution order. -/
def output_files : List String :=
  ["logo.png", "dashboard.png", "algo-trading.png", "copy-trading.png"]

/-- The full event trace of `__main__`: `gen_logo(); gen_dashboard();
gen_algo(); gen_copy()`, each ending in one `make_image_fixed_width`
call. -/
def main_events : List Event :=
  make_image_events "logo.png" ++ make_image_events "dashboard.png"
    ++ make_image_events "algo-trading.png" ++ make_image_events "copy-trading.png"

/-- One generator run in a world where saving to path `p` succeeds iff
`writable p = true`; a failed save raises, and the script has no handler,
so the exception propagates as `Except.error`. -/
def run_make_image (writable : String → Bool) (filename : String) :
    Except String (List Event) :=
  if writable (ASSET_DIR ++ filename) then Except.ok (make_image_events filename)
  else Except.error (ASSET_DIR ++ filename)

/-- The `__main__` driver under the fallible-save model: the four
generators run in order, the first failed save aborts everything after
it, and there is no retry and no prior validation of the output
directory. -/
def main_run (writable : String → Bool) : Except String (List Event) :=
  (run_make_image writable "logo.png").bind fun e1 =>
    (run_make_image writable "dashboard.png").bind fun e2 =>
      (run_make_image writable "algo-trading.png").bind fun e3 =>
        (run_make_image writable "copy-trading.png").bind fun e4 =>
          Except.ok (e1 ++ e2 ++ e3 ++ e4)

/-- Everything the generator produces, as a function of its only external
inputs: which font paths exist and the width metric of the loaded font.
Per panel: its `(text, color_map)` lines, its canvas/output dimensions,
and its event trace.  (`gen_logo` renders at font size 28, the other
three at `BASE_FONT_SIZE`; `make_image_fixed_width` loads the font at
`font_size * SCALE`.) -/
def generator_output (pathExists : String → Bool) (charWidthOf : Font → Nat) :
    List (List (String × List Color) × (Nat × Nat × Nat × Nat) × List Event) :=
  [(Logo.lines,
    make_image_dims Logo.lines 28 (charWidthOf (get_font pathExists (28 * SCALE))),
    make_image_events "logo.png"),
   (Dashboard.lines,
    make_image_dims Dashboard.lines BASE_FONT_SIZE
      (charWidthOf (get_font pathExists (BASE_FONT_SIZE * SCALE))),
    make_image_events "dashboard.png"),
   (Algo.lines,
    make_image_dims Algo.lines BASE_FONT_SIZE
      (charWidthOf (get_font pathExists (BASE_FONT_SIZE * SCALE))),
    make_image_events "algo-trading.png"),
   (Copy.lines,
    make_image_dims Copy.lines BASE_FONT_SIZE
      (charWidthOf (get_font pathExists (BASE_FONT_SIZE * SCALE))),
    make_image_events "copy-trading.png")]

set_option maxRecDepth 100000

theorem pyRep_length (c : Char) (n : Nat) : (pyRep c n).length = n := by
  show (List.replicate n c).length = n
  simp

theorem spaces_length (n : Nat) : (spaces n).length = n := pyRep_length ' ' n

theorem build_line_foldl_parallel (segments : List (String × Color))
    (acc : String × List Color) (h : acc.2.length = acc.1.length) :
    (segments.foldl
      (fun acc seg => (acc.1 ++ seg.1, acc.2 ++ List.replicate seg.1.length seg.2))
      acc).2.length
    = (segments.foldl
      (fun acc seg => (acc.1 ++ seg.1, acc.2 ++ List.replicate seg.1.length seg.2))
      acc).1.length := by
  induction segments generalizing acc with
  | nil => exact h
  | cons s ss ih =>
    exact ih _ (by simp [String.length_append, h])

/-- C1: in each of the three fixed-width panels (dashboard, algo-trading
and copy-trading, all declared with `W = 98`), every line handed to the
rasterizer has a text of exactly 98 characters, left and right border
characters included. -/
theorem panels_fixed_width_98 :
    ((Dashboard.lines ++ Algo.lines ++ Copy.lines).all
      (fun l => l.1.length == 98)) = true := by decide

/-- C2 counterexample: the copy-trading panel violates the stated junction
rule, so the claim fails as stated.  Line 3 is a two-column line (`│` at
index 49), but the interior border line 4 right below it has a plain `═`
at index 49 instead of the matching `╧`. -/
theorem border_positions_counterexample :
    borderPositionsOk (texts Copy.lines) = false ∧
    isTwoCol ((texts Copy.lines).getD 3 "") = true ∧
    isInteriorBorder ((texts Copy.lines).getD 4 "") = true ∧
    charAt ((texts Copy.lines).getD 4 "") 49 = '═' := by decide

/-- C2 (amended): content lines have `║` at indices 0 and 97 in all three
98-wide panels; the lines with `│` at index 49 are exactly the
`two_col_line` rows (listed per panel); and every interior border carries
the matching junction at index 49 exactly when the adjacent content is
two-column — except the single border at index 4 of the copy-trading
panel, which has `═` there despite the two-column line above it. -/
theorem border_positions_amended :
    borderPositionsOk (texts Dashboard.lines) = true ∧
    borderPositionsOk (texts Algo.lines) = true ∧
    contentBordersOk (texts Copy.lines) = true ∧
    junctionMismatches (texts Copy.lines) = [4] ∧
    (texts Dashboard.lines).map isTwoCol = List.replicate 20 false ∧
    (texts Algo.lines).map isTwoCol =
      [false, false, false, true, false, true, true, true, false, true,
       false, false, false, false, false, false, false, false, false, false,
       false, false, false, false, false, false, false, false] ∧
    (texts Copy.lines).map isTwoCol =
      [false, false, false, true, false, false, false, true, false, true,
       false, true, false, true, false, false, false, false, false, false,
       false, false, false, false, false, false, false, false, false, false,
       false, false, false] := by decide

/-- C3: the centering arithmetic is exact.  For a joined text of length
`n ≤ 96`, `center_line`'s pads are `(96 - n) / 2` and `96 - n - left_pad`;
they sum with `n` to the inner width 96 (so the centered line has 98
characters) and differ by 0 or 1.  The two-column split satisfies
`LEFT_W + 1 + RIGHT_W = W - 2`, so a padded two-column line whose columns
fit also fills the width exactly. -/
theorem centering_arithmetic_exact
    (segs ls rs : List (String × Color)) (n : Nat)
    (hn : (build_line segs).1.length = n) (h96 : n ≤ 96)
    (hl : (build_line ls).1.length ≤ Algo.LEFT_W)
    (hr : (build_line rs).1.length ≤ Algo.RIGHT_W) :
    center_padL n = (96 - n) / 2 ∧
    center_padR n = 96 - n - center_padL n ∧
    center_padL n + n + center_padR n = 96 ∧
    (center_padR n - center_padL n = 0 ∨ center_padR n - center_padL n = 1) ∧
    (center_line segs).1.length = 98 ∧
    Algo.LEFT_W + 1 + Algo.RIGHT_W = W - 2 ∧
    (Algo.two_col_line ls rs).1.length = 98 := by
  have harith : center_padL n + n + center_padR n = 96 ∧
      (center_padR n - center_padL n = 0 ∨ center_padR n - center_padL n = 1) := by
    simp only [center_padL, center_padR, W]
    omega
  have hone : ("║" : String).length = 1 := rfl
  have hsep : ("│" : String).length = 1 := rfl
  have hcl : (center_line segs).1 =
      "║" ++ spaces (center_padL (build_line segs).1.length)
        ++ (build_line segs).1
        ++ spaces (center_padR (build_line segs).1.length) ++ "║" := rfl
  have hlen : (center_line segs).1.length = 98 := by
    rw [hcl]
    simp only [String.length_append, spaces_length, hn, hone, center_padL, center_padR, W]
    omega
  have htc : (Algo.two_col_line ls rs).1 =
      "║" ++ ((build_line ls).1 ++ spaces (Algo.LEFT_W - (build_line ls).1.length))
        ++ "│" ++ ((build_line rs).1 ++ spaces (Algo.RIGHT_W - (build_line rs).1.length))
        ++ "║" := rfl
  have htlen : (Algo.two_col_line ls rs).1.length = 98 := by
    rw [htc]
    simp only [Algo.LEFT_W, Algo.RIGHT_W] at hl hr
    simp only [String.length_append, spaces_length, hone, hsep, Algo.LEFT_W, Algo.RIGHT_W]
    omega
  exact ⟨rfl, rfl, harith.1, harith.2, hlen, rfl, htlen⟩

/-- Witness for `centering_arithmetic_exact` at the algo panel's title line
(16 characters) and its first two-column row. -/
theorem centering_arithmetic_exact_witness :
    (center_line [("One Account Mode", YELLOW)]).1.length = 98 ∧
    (Algo.two_col_line [(" Qty: ", WHITE), ("1", GREEN)]
      [(" P&L: ", WHITE), ("+$42.50", GREEN)]).1.length = 98 := by
  have h := centering_arithmetic_exact [("One Account Mode", YELLOW)]
    [(" Qty: ", WHITE), ("1", GREEN)] [(" P&L: ", WHITE), ("+$42.50", GREEN)]
    16 (by decide) (by decide) (by decide) (by decide)
  exact ⟨h.2.2.2.2.1, h.2.2.2.2.2.2⟩

/-- C4: for a nonempty line list, the supersampled canvas measures
`max_chars * char_width + 80 * SCALE` by
`n_lines * (2 * font_size * 13 / 10) + 60 * SCALE` (the line height is
`int(font_size * SCALE * 1.3)`), and the saved image is exactly the
halved canvas `(W / 2, H / 2)`. -/
theorem canvas_dimensions (panel_lines : List (String × List Color))
    (font_size char_width : Nat) (hne : panel_lines ≠ []) :
    make_image_dims panel_lines font_size char_width =
      (((panel_lines.map (fun l => l.1.length)).foldl max 0) * char_width + 80 * SCALE,
       panel_lines.length * (2 * font_size * 13 / 10) + 60 * SCALE,
       (((panel_lines.map (fun l => l.1.length)).foldl max 0) * char_width + 80 * SCALE) / 2,
       (panel_lines.length * (2 * font_size * 13 / 10) + 60 * SCALE) / 2) := by
  have hmul : font_size * 2 * 13 = 2 * font_size * 13 := by ring
  simp only [make_image_dims, SCALE, hmul]

/-- Witness for `canvas_dimensions` on a one-line panel with
`font_size = 24` and `char_width = 10`. -/
theorem canvas_dimensions_witness :
    make_image_dims [("ab", [])] 24 10 = (180, 182, 90, 91) := by
  rw [canvas_dimensions [("ab", [])] 24 10 (by decide)]
  decide

/-- C5: `get_font` probes the two DejaVuSansMono paths in order and returns
a truetype font loaded from the first existing one; when neither path
exists it returns the library's default fallback font — for every
requested size and every path-existence predicate. -/
theorem get_font_first_existing_path (pathExists : String → Bool) (size : Nat) :
    get_font pathExists size =
      if pathExists "/usr/share/fonts/truetype/dejavu/DejaVuSansMono.ttf" = true then
        Font.truetype "/usr/share/fonts/truetype/dejavu/DejaVuSansMono.ttf" size
      else if pathExists "/usr/share/fonts/truetype/dejavu/DejaVuSansMono-Bold.ttf" = true then
        Font.truetype "/usr/share/fonts/truetype/dejavu/DejaVuSansMono-Bold.ttf" size
      else Font.fallback := by
  cases h1 : pathExists "/usr/share/fonts/truetype/dejavu/DejaVuSansMono.ttf" <;>
    cases h2 : pathExists "/usr/share/fonts/truetype/dejavu/DejaVuSansMono-Bold.ttf" <;>
      simp [get_font, font_paths, List.find?, h1, h2]

/-- C6: a complete driver run emits the four generator traces strictly in
order — each image completed (layout, draw, resize, save) before the next
begins — and its save events are exactly the four fixed file names in the
fixed asset directory, in that order. -/
theorem driver_writes_four_pngs :
    main_events =
      make_image_events "logo.png" ++ make_image_events "dashboard.png"
        ++ make_image_events "algo-trading.png" ++ make_image_events "copy-trading.png" ∧
    main_events.filterMap savePath = output_files.map (fun f => ASSET_DIR ++ f) ∧
    output_files = ["logo.png", "dashboard.png", "algo-trading.png", "copy-trading.png"] :=
  ⟨rfl, by decide, rfl⟩

/-- C7: determinism — two runs with identical external inputs (the same
font-path existence and the same font width metric) produce identical
line/color data, identical canvas and output dimensions, and identical
event traces for every panel. -/
theorem generator_deterministic (pe1 pe2 : String → Bool) (cw1 cw2 : Font → Nat)
    (hpe : pe1 = pe2) (hcw : cw1 = cw2) :
    generator_output pe1 cw1 = generator_output pe2 cw2 := by
  rw [hpe, hcw]

/-- Witness for `generator_deterministic`: both font paths present, a
10-pixel character width. -/
theorem generator_deterministic_witness :
    generator_output (fun _ => true) (fun _ => 10)
      = generator_output (fun _ => true) (fun _ => 10) :=
  generator_deterministic (fun _ => true) (fun _ => true)
    (fun _ => 10) (fun _ => 10) rfl rfl

/-- C8: apart from the font fallback nothing handles errors: the run
succeeds with the full trace only when all four saves succeed, and the
first failing save terminates the run with exactly that error — nothing
after it runs, with no validation and no retry. -/
theorem save_failure_propagates (writable : String → Bool) :
    main_run writable =
      if writable (ASSET_DIR ++ "logo.png") = true then
        if writable (ASSET_DIR ++ "dashboard.png") = true then
          if writable (ASSET_DIR ++ "algo-trading.png") = true then
            if writable (ASSET_DIR ++ "copy-trading.png") = true then
              Except.ok main_events
            else Except.error (ASSET_DIR ++ "copy-trading.png")
          else Except.error (ASSET_DIR ++ "algo-trading.png")
        else Except.error (ASSET_DIR ++ "dashboard.png")
      else Except.error (ASSET_DIR ++ "logo.png") := by
  cases h1 : writable (ASSET_DIR ++ "logo.png") <;>
  cases h2 : writable (ASSET_DIR ++ "dashboard.png") <;>
  cases h3 : writable (ASSET_DIR ++ "algo-trading.png") <;>
  cases h4 : writable (ASSET_DIR ++ "copy-trading.png") <;>
  simp [main_run, run_make_image, main_events, Except.bind, h1, h2, h3, h4]

/-- C9: `build_line` always returns a color map exactly as long as its
text, and every line of all four generated panels (logo included)
satisfies `len(color_map) = len(text)` when handed to the rasterizer. -/
theorem color_map_parallel :
    (∀ segments, (build_line segments).2.length = (build_line segments).1.length) ∧
    ((Logo.lines ++ Dashboard.lines ++ Algo.lines ++ Copy.lines).all
      (fun l => l.2.length == l.1.length)) = true := by
  constructor
  · intro segments
    exact build_line_foldl_parallel segments ("", []) rfl
  · decide

/-- C10: the rasterizer's per-character color lookup is total: it agrees
with `List.getD` with default `WHITE`, so any index at or beyond the color
map's length yields `WHITE` instead of an out-of-bounds access. -/
theorem char_color_total (color_map : List Color) (i : Nat) :
    char_color color_map i = color_map.getD i WHITE ∧
    (color_map.length ≤ i → char_color color_map i = WHITE) := by
  by_cases h : i < color_map.length
  · refine ⟨?_, fun hle => absurd h (by omega)⟩
    rw [List.getD_eq_get?, List.get?_eq_get h]
    simp [char_color, h]
  · have hle : color_map.length ≤ i := by omega
    have hnone : color_map.getD i WHITE = WHITE := by
      rw [List.getD_eq_get?, List.get?_eq_none.mpr hle]
      rfl
    have hcc : char_color color_map i = WHITE := by
      simp [char_color, h]
    exact ⟨hcc.trans hnone.symm, fun _ => hcc⟩

/-- Witness for `char_color_total` at a one-entry color map and index 5. -/
theorem char_color_total_witness :
    char_color [CYAN] 5 = [CYAN].getD 5 WHITE ∧ char_color [CYAN] 5 = WHITE :=
  ⟨(char_color_total [CYAN] 5).1, (char_color_total [CYAN] 5).2 (by decide)⟩

end HQX
